import Mathlib

/-!
# Autograd function bindings

A shallow embedding of `torch/csrc/autograd/functions/init.cpp`: the constructor
shims (`BatchNormCtor`, `DelayedErrorCtor`, `NoCtor`), the attribute getters
(`getTupleAttr`, `getValueAttr`, `getTensorAttr`, `accumulateGradVar`), the
registration helper `addClass` and the entry point `THPAutograd_initFunctions`.

Conventions of the embedding:

* a native function that may raise a C++ exception returns `Except Exn α`;
* a `PyObject*` is an `Option PyObject`, `none` being `NULL`;
* what the interpreter observes from a getter is an `Outcome`;
* interpreter and process state touched by registration is a `World`.
-/

namespace Autograd

/-! ## Values -/

/-- An IEEE-754 binary64 value, carried by its bit pattern. This layer only
moves such values around, it performs no arithmetic on them. -/
structure Double where
  bits : Nat
deriving DecidableEq, Repr

/-- An `at::Tensor` handle: either undefined or a reference to a tensor. -/
inductive Tensor where
  | undefined
  | impl (id : Nat)
deriving DecidableEq, Repr

/-- The method `at::Tensor::defined`. -/
def Tensor.defined : Tensor → Bool
  | .undefined => false
  | .impl _ => true

/-- A `Variable` of the autograd graph is a tensor handle. -/
abbrev Variable := Tensor

/-- A native exception. `runtime_error` is `std::runtime_error`; the two
argument errors are the ones the tuple parser reports. -/
inductive Exn where
  | runtime_error (what : String)
  | arg_count (expected got : Nat)
  | arg_type (index : Nat) (param : String) (expected : String)
deriving DecidableEq, Repr

/-- Whether an exception is an argument error (wrong count or wrong type). -/
def Exn.isArgumentError : Exn → Bool
  | .runtime_error _ => false
  | .arg_count _ _ => true
  | .arg_type _ _ _ => true

/-- The constructor shim installed as `tp_new` of a type (template argument
`T` of `addClass`). -/
inductive Ctor where
  | BatchNormCtor
  | DelayedErrorCtor
  | NoCtor
deriving DecidableEq, Repr

/-- The getter tables (`PyGetSetDef[]`) defined in the file. -/
inductive GetSetTable where
  | batch_norm_forward_properties
  | batch_norm_backward_properties
  | batch_norm_backward_backward_properties
  | accumulate_grad_properties
deriving DecidableEq, Repr

/-- A `PyTypeObject` after `createForwardFunctionPyTypeObject` filled it in.
`tp_getset` and `tp_methods` are `none` when `addClass` received `NULL`, in
which case the type carries the default tables only. -/
structure PyTypeObject where
  tp_name : String
  tp_new : Ctor
  tp_getset : Option GetSetTable
  tp_methods : Option (List String)
deriving DecidableEq, Repr

/-- Interpreter objects. A tuple slot may hold `NULL`, as `PyTuple_SET_ITEM`
stores whatever pointer it is given. -/
inductive PyObject where
  | none
  | bool (b : Bool)
  | long (n : Int)
  | float (d : Double)
  | str (s : String)
  | tensor (id : Nat)
  | tuple (items : List (Option PyObject))
  | type (t : PyTypeObject)
  | module (name : String) (dict : List (String × PyObject))

/-- The singleton `Py_None`. -/
def Py_None : PyObject := .none

/-- What the interpreter observes when it calls a getter.
* `ret p`: the getter returned the pointer `p` (`none` is `NULL`);
* `raised e`: the getter returned `NULL` after its handler stored `e` in the
  interpreter's error indicator;
* `uncaught e`: the native exception `e` propagated out of the getter. -/
inductive Outcome where
  | ret (p : Option PyObject)
  | raised (e : Exn)
  | uncaught (e : Exn)

/-- Modelled from the spec: the macro pair `HANDLE_TH_ERRORS` /
`END_HANDLE_TH_ERRORS` is defined outside this file. A failure raised inside
the bracketed body surfaces as an interpreter-level exception carrying the
underlying error, and the function returns `NULL`. -/
def HANDLE_TH_ERRORS (body : Except Exn (Option PyObject)) : Outcome :=
  match body with
  | .ok p => .ret p
  | .error e => .raised e

/-- A function body that is not bracketed by the handler: an exception raised
inside it leaves the function. -/
def unhandled (body : Except Exn (Option PyObject)) : Outcome :=
  match body with
  | .ok p => .ret p
  | .error e => .uncaught e

/-! ## Native function nodes -/

/-- The parameter struct `BatchNormParams`; the fields and their types are the
ones the shim parses and the getter tables read. -/
structure BatchNormParams where
  running_mean : Tensor
  running_var : Tensor
  training : Bool
  momentum : Double
  eps : Double
  cudnn_enabled : Bool
deriving DecidableEq, Repr

/-- The node `BatchNormForward`, which embeds a `BatchNormParams` by value. -/
structure BatchNormForward extends BatchNormParams
deriving DecidableEq, Repr

/-- The node `DelayedError`, built from its message. -/
structure DelayedError where
  msg : String
deriving DecidableEq, Repr

/-- The node `AccumulateGrad`, which holds the variable it accumulates into
(the member `variable` of the source). -/
structure AccumulateGrad where
  variable_ : Variable
deriving DecidableEq, Repr

/-- A node as seen through `Function*`, the common return type of the shims. -/
inductive Function where
  | BatchNormForward (f : Autograd.BatchNormForward)
  | DelayedError (f : Autograd.DelayedError)
deriving DecidableEq, Repr

/-- The interpreter wrapper `THPCppFunction`; `cdata` is the node it holds. -/
structure THPCppFunction (T : Type) where
  cdata : T

/-! ## Tuple parser -/

/-- Modelled from the spec: `torch::TupleParser` is declared in
`torch/csrc/utils/tuple_parser.h`, outside this file. It accepts a fixed-arity
sequence of interpreter values and converts each positional element into the
expected native field type, failing with an argument-count or type-conversion
error if the shape does not match. `idx` is the position of the next element. -/
structure TupleParser where
  args : List PyObject
  idx : Nat

/-- Modelled from the spec: the constructor `TupleParser(args, num_args)`
checks the argument count. -/
def TupleParser.new (args : List PyObject) (num_args : Nat) : Except Exn TupleParser :=
  if args.length ≠ num_args then throw (.arg_count num_args args.length)
  else pure { args := args, idx := 0 }

/-- Modelled from the spec: fetch the next positional element. -/
def TupleParser.next_arg (p : TupleParser) : Except Exn (PyObject × TupleParser) :=
  match p.args[p.idx]? with
  | some obj => pure (obj, { p with idx := p.idx + 1 })
  | Option.none => throw (.arg_count (p.idx + 1) p.args.length)

/-- Modelled from the spec: `parse(at::Tensor&, name)` accepts a tensor handle. -/
def TupleParser.parseTensor (p : TupleParser) (param_name : String) :
    Except Exn (Tensor × TupleParser) := do
  let (obj, q) ← p.next_arg
  match obj with
  | .tensor id => pure (Tensor.impl id, q)
  | _ => throw (.arg_type p.idx param_name "tensor")

/-- Modelled from the spec: `parse(bool&, name)` accepts a boolean. -/
def TupleParser.parseBool (p : TupleParser) (param_name : String) :
    Except Exn (Bool × TupleParser) := do
  let (obj, q) ← p.next_arg
  match obj with
  | .bool b => pure (b, q)
  | _ => throw (.arg_type p.idx param_name "bool")

/-- Modelled from the spec: `parse(double&, name)` accepts a float. -/
def TupleParser.parseDouble (p : TupleParser) (param_name : String) :
    Except Exn (Double × TupleParser) := do
  let (obj, q) ← p.next_arg
  match obj with
  | .float d => pure (d, q)
  | _ => throw (.arg_type p.idx param_name "float")

/-- Modelled from the spec: `parse(std::string&, name)` accepts a string. -/
def TupleParser.parseString (p : TupleParser) (param_name : String) :
    Except Exn (String × TupleParser) := do
  let (obj, q) ← p.next_arg
  match obj with
  | .str s => pure (s, q)
  | _ => throw (.arg_type p.idx param_name "str")

/-! ## Constructor shims -/

/-- The shim `BatchNormCtor::operator()`: six positional arguments are parsed into a
`BatchNormParams`, from which the node is built. -/
def BatchNormCtor (args : List PyObject) : Except Exn BatchNormForward := do
  let parser ← TupleParser.new args 6
  let (running_mean, parser) ← parser.parseTensor "running_mean"
  let (running_var, parser) ← parser.parseTensor "running_var"
  let (training, parser) ← parser.parseBool "training"
  let (momentum, parser) ← parser.parseDouble "momentum"
  let (eps, parser) ← parser.parseDouble "eps"
  let (cudnn_enabled, _) ← parser.parseBool "cudnn_enabled"
  return { running_mean := running_mean, running_var := running_var,
           training := training, momentum := momentum, eps := eps,
           cudnn_enabled := cudnn_enabled }

/-- The shim `DelayedErrorCtor::operator()`: one positional argument, the message. -/
def DelayedErrorCtor (args : List PyObject) : Except Exn DelayedError := do
  let parser ← TupleParser.new args 1
  let (msg, _) ← parser.parseString "msg"
  return { msg := msg }

/-- The marker `NoCtor::operator()`: it always throws, whatever the arguments. -/
def NoCtor (_args : List PyObject) : Except Exn Function :=
  throw (.runtime_error "Cannot construct")

/-- Instantiating a type calls the shim installed as its `tp_new`. -/
def Ctor.call : Ctor → List PyObject → Except Exn Function
  | .BatchNormCtor, args => (Autograd.BatchNormCtor args).map Function.BatchNormForward
  | .DelayedErrorCtor, args => (Autograd.DelayedErrorCtor args).map Function.DelayedError
  | .NoCtor, args => Autograd.NoCtor args

/-! ## Conversions to interpreter values -/

/-- CPython's `PyBool_FromLong`: `True` for a non-zero argument. -/
def PyBool_FromLong (v : Int) : Except Exn (Option PyObject) :=
  pure (some (.bool (v != 0)))

/-- CPython's `PyFloat_FromDouble`. -/
def PyFloat_FromDouble (d : Double) : Except Exn (Option PyObject) :=
  pure (some (.float d))

/-- The function `PortablePyInt_FromLong`: the stub around `THPUtils_packInt64`. -/
def PortablePyInt_FromLong (ival : Int) : Except Exn (Option PyObject) :=
  pure (some (.long ival))

/-- The implicit C++ conversion from `bool` to `long`. -/
def boolToLong (b : Bool) : Int := if b then 1 else 0

/-- Modelled from the spec: `torch::createPyObject` is defined outside this
file. A tensor field converts to the interpreter's tensor wrapper. The source
calls it on defined tensors only; an undefined argument is taken to raise. -/
def createPyObject : Tensor → Except Exn (Option PyObject)
  | .impl id => pure (some (.tensor id))
  | .undefined => throw (.runtime_error "undefined tensor")

/-- CPython's `PyTuple_New`: a tuple of `n` empty slots, or `NULL` when the
allocation fails (`mem = false`). -/
def PyTuple_New (mem : Bool) (n : Nat) : Option (List (Option PyObject)) :=
  if mem then some (List.replicate n Option.none) else Option.none

/-- CPython's `PyTuple_SET_ITEM`: store a pointer in slot `i`. -/
def PyTuple_SET_ITEM (t : List (Option PyObject)) (i : Nat) (o : Option PyObject) :
    List (Option PyObject) :=
  t.set i o

/-! ## Attribute getters -/

/-- The type of a getter installed in a `PyGetSetDef` table for node type `T`. -/
abbrev Getter (T : Type) := THPCppFunction T → Outcome

/-- The loop of `getTupleAttr`:
`for (size_t i = 0; i < num_elems; ++i) PyTuple_SET_ITEM(py_tuple, i, Convert(arr[i]))`,
started at index `i` on the tuple `py_tuple`. `cast` is the implicit conversion
of an element to the argument type of `Convert`. -/
def getTupleAttr.loop {ElemT ConvertArgT : Type} (cast : ElemT → ConvertArgT)
    (Convert : ConvertArgT → Except Exn (Option PyObject)) (arr : List ElemT)
    (i : Nat) (py_tuple : List (Option PyObject)) : Except Exn (List (Option PyObject)) :=
  if h : i < arr.length then do
    let item ← Convert (cast arr[i])
    getTupleAttr.loop cast Convert arr (i + 1) (PyTuple_SET_ITEM py_tuple i item)
  else
    pure py_tuple
termination_by arr.length - i

/-- The getter `getTupleAttr<T, ValueT, ParamsT, ptr, ConvertArgT, Convert>`: read the
sequence field `ptr` of the node and convert it element by element. `base` is
the upcast of the node to its parameter struct. -/
def getTupleAttr {T ParamsT ElemT ConvertArgT : Type} (mem : Bool) (base : T → ParamsT)
    (ptr : ParamsT → List ElemT) (cast : ElemT → ConvertArgT)
    (Convert : ConvertArgT → Except Exn (Option PyObject)) : Getter T :=
  fun obj => HANDLE_TH_ERRORS (do
    let self := obj
    let arr := ptr (base self.cdata)
    let num_elems := arr.length
    match PyTuple_New mem num_elems with
    | Option.none => return Option.none
    | some py_tuple =>
      let py_tuple ← getTupleAttr.loop cast Convert arr 0 py_tuple
      return some (.tuple py_tuple))

/-- The getter `getValueAttr<T, ValueT, ParamsT, ptr, ConvertArgT, Convert>`: read the
field `ptr` of the node and convert it. -/
def getValueAttr {T ParamsT ValueT ConvertArgT : Type} (base : T → ParamsT)
    (ptr : ParamsT → ValueT) (cast : ValueT → ConvertArgT)
    (Convert : ConvertArgT → Except Exn (Option PyObject)) : Getter T :=
  fun obj => HANDLE_TH_ERRORS (do
    let self := obj
    let val := ptr (base self.cdata)
    Convert (cast val))

/-- The getter `getTensorAttr<T, ParamsT, ptr>`: read the tensor field `ptr` of the node;
`Py_None` when it is undefined, its wrapper otherwise. The helper
`torch::createPyObject` is passed as `wrap`. -/
def getTensorAttr {T ParamsT : Type} (wrap : Tensor → Except Exn (Option PyObject))
    (base : T → ParamsT) (ptr : ParamsT → Tensor) : Getter T :=
  fun obj => HANDLE_TH_ERRORS (do
    let self := obj
    let val := ptr (base self.cdata)
    let py_tensor ←
      if !val.defined then pure (some Py_None)
      else wrap val
    return py_tensor)

/-- The explicit entries of `batch_norm_forward_properties`, in source order. -/
def batch_norm_forward_getters : List (String × Getter BatchNormForward) :=
  [ ("running_mean", getTensorAttr createPyObject BatchNormForward.toBatchNormParams
        BatchNormParams.running_mean),
    ("running_var", getTensorAttr createPyObject BatchNormForward.toBatchNormParams
        BatchNormParams.running_var),
    ("training", getValueAttr BatchNormForward.toBatchNormParams
        BatchNormParams.training boolToLong PyBool_FromLong),
    ("momentum", getValueAttr BatchNormForward.toBatchNormParams
        BatchNormParams.momentum id PyFloat_FromDouble),
    ("eps", getValueAttr BatchNormForward.toBatchNormParams
        BatchNormParams.eps id PyFloat_FromDouble),
    ("cudnn_enabled", getValueAttr BatchNormForward.toBatchNormParams
        BatchNormParams.cudnn_enabled boolToLong PyBool_FromLong) ]

/-- The table `batch_norm_forward_properties`: the entries of the macro
`THP_FUNCTION_DEFAULT_PROPERTIES` (defined outside this file, passed as
`defaults`) followed by the six explicit entries. -/
def batch_norm_forward_properties (defaults : List (String × Getter BatchNormForward)) :
    List (String × Getter BatchNormForward) :=
  defaults ++ batch_norm_forward_getters

/-- The getter `accumulateGradVar`: wrap the variable of an `AccumulateGrad` node. The body
is not bracketed by the error handler. The helper `THPVariable_Wrap` is defined
outside this file and is passed as a parameter. -/
def accumulateGradVar (THPVariable_Wrap : Variable → Except Exn (Option PyObject)) :
    Getter AccumulateGrad :=
  fun _self => unhandled (do
    let self := _self
    let grad_acc := self.cdata
    THPVariable_Wrap grad_acc.variable_)

/-- The table `accumulate_grad_properties`: the default entries followed by
`variable`. -/
def accumulate_grad_properties (THPVariable_Wrap : Variable → Except Exn (Option PyObject))
    (defaults : List (String × Getter AccumulateGrad)) :
    List (String × Getter AccumulateGrad) :=
  defaults ++ [("variable", accumulateGradVar THPVariable_Wrap)]

/-- Read every attribute of a table on one wrapper. -/
def readAll {T : Type} (table : List (String × Getter T)) (obj : THPCppFunction T) :
    List (String × Outcome) :=
  table.map (fun e => (e.1, e.2 obj))

/-! ## Registration -/

/-- The runtime identity (`typeid`) of a native node class: the twenty classes
registered in this file, and the classes of the generated functions, which are
registered by `generated::initialize_autogenerated_functions`. -/
inductive NativeClass where
  | BatchNormForward
  | BatchNormBackward
  | BatchNormBackwardBackward
  | AccumulateGrad
  | Add
  | AddBackward_Deprecated
  | Error
  | DelayedError
  | Clone
  | Contiguous
  | Identity
  | Transpose
  | View
  | Expand
  | Narrow
  | Cat
  | Eval
  | InterpreterAutogradFunction
  | CopyBackwards
  | CopySlices
  | generated (idx : Nat)
deriving DecidableEq, Repr

/-- Whether a class identity belongs to a generated function. -/
def NativeClass.isGenerated : NativeClass → Bool
  | .generated _ => true
  | _ => false

/-- A module object: its name and its attribute dictionary. -/
structure PyModule where
  name : String
  dict : List (String × PyObject)

/-- A module seen as an interpreter object. -/
def PyModule.toObject (m : PyModule) : PyObject := .module m.name m.dict

/-- The interpreter and process state registration works on.
* `module_alloc`: whether `PyModule_New` can create a module;
* `add_object_ok m n`: whether `PyModule_AddObject` succeeds in binding the
  attribute `n` in the module named `m` (it fails, for instance, when the
  insertion cannot allocate);
* `sys_modules`: the modules `PyImport_ImportModule` can locate;
* `cpp_function_types`: the reverse registry from native class identity to
  interpreter type. -/
structure World where
  module_alloc : Bool
  add_object_ok : String → String → Bool
  sys_modules : List (String × PyModule)
  cpp_function_types : List (NativeClass × PyTypeObject)

/-- The module CPython's `PyModule_New` builds: its dictionary already holds
`__name__`, `__doc__`, `__package__`, `__loader__` and `__spec__`. -/
def freshModule (name : String) : PyModule :=
  { name := name,
    dict := [("__name__", .str name), ("__doc__", .none), ("__package__", .none),
             ("__loader__", .none), ("__spec__", .none)] }

/-- CPython's `PyModule_New`: a fresh module, or `NULL`. -/
def PyModule_New (name : String) (w : World) : Option PyModule :=
  if w.module_alloc then some (freshModule name) else Option.none

/-- CPython's `PyImport_ImportModule`: the named module, or `NULL` when it
cannot be located. -/
def PyImport_ImportModule (name : String) (w : World) : Option PyModule :=
  w.sys_modules.lookup name

/-- CPython's `PyDict_SetItemString`: bind `key`, replacing an earlier binding. -/
def PyDict_SetItemString (d : List (String × PyObject)) (key : String) (v : PyObject) :
    List (String × PyObject) :=
  if d.any (fun e => e.1 == key) then d.map (fun e => if e.1 == key then (key, v) else e)
  else d ++ [(key, v)]

/-- CPython's `PyDict_GetItemString`. -/
def PyDict_GetItemString (d : List (String × PyObject)) (key : String) : Option PyObject :=
  d.lookup key

/-- CPython's `PyModule_AddObject`: on success the status is `0` and `name` is
bound to `value` in the module; on failure the status is `-1` and the module
is left as it was. The result is the status and the module afterwards. -/
def PyModule_AddObject (w : World) (module : PyModule) (name : String) (value : PyObject) :
    Int × PyModule :=
  (if w.add_object_ok module.name name then 0 else -1,
   if w.add_object_ok module.name name then
     { module with dict := PyDict_SetItemString module.dict name value }
   else module)

/-- A module mutated through the pointer `PyImport_ImportModule` returned for
`key` is the module later imports of `key` see. -/
def World.storeModule (w : World) (key : String) (m : PyModule) : World :=
  { w with sys_modules := w.sys_modules.map (fun e => if e.1 == key then (e.1, m) else e) }

/-- Modelled from the spec: `createForwardFunctionPyTypeObject<T>` is defined
in `python_cpp_function.h`, outside this file. It builds the interpreter-level
type object of a class: its name, the constructor shim `T`, and the getter and
method tables. The static `PyTypeObject` the source passes by reference is the
value returned here. -/
def createForwardFunctionPyTypeObject (T : Ctor) (name : String)
    (function_properties : Option GetSetTable) (function_methods : Option (List String)) :
    PyTypeObject :=
  { tp_name := name, tp_new := T, tp_getset := function_properties,
    tp_methods := function_methods }

/-- Modelled from the spec: `registerCppFunction` is defined in
`python_cpp_function.cpp`, outside this file. The (native-class,
interpreter-type) pair is recorded in the reverse registry, which is
append-only. -/
def registerCppFunction (type : NativeClass) (pytype : PyTypeObject) (w : World) : World :=
  { w with cpp_function_types := w.cpp_function_types ++ [(type, pytype)] }

/-- Modelled from the spec: the reverse registry is read by generic wrapping
code outside this file, which looks up the interpreter type recorded for a
native class identity. The registry is a mapping: the pair recorded last for
an identity is the one found. -/
def lookupCppFunction (w : World) (type : NativeClass) : Option PyTypeObject :=
  w.cpp_function_types.reverse.lookup type

/-- The helper `addClass<C, T>(module, type, name, function_properties, function_methods)`:
build the type object, bind it in the module under `name`, record it in the
reverse registry under `typeid(C)`. The status of `PyModule_AddObject` is
discarded, as in the source. Reference counts are not modelled. -/
def addClass (C : NativeClass) (T : Ctor) (module : PyModule) (name : String)
    (function_properties : Option GetSetTable) (function_methods : Option (List String))
    (w : World) : PyModule × World :=
  let type := createForwardFunctionPyTypeObject T name function_properties function_methods
  let module := (PyModule_AddObject w module name (.type type)).2
  (module, registerCppFunction C type w)

/-- Modelled from the spec: `generated::initialize_autogenerated_functions` is
defined outside this file. The reverse registry is append-only, so what it does
to the registry is to record the pairs of the generated classes; these are
given as `gen`, each with the index of its class. -/
def generated.initialize_autogenerated_functions (gen : List (Nat × PyTypeObject))
    (w : World) : World :=
  gen.foldl (fun w e => registerCppFunction (.generated e.1) e.2 w) w

/-- The twenty `addClass` calls of `THPAutograd_initFunctions`, in source
order. -/
def THPAutograd_initFunctions.addClasses (module : PyModule) (w : World) : PyModule × World :=
  let (module, w) := addClass .BatchNormForward .BatchNormCtor module "BatchNorm"
    (some .batch_norm_forward_properties) Option.none w
  let (module, w) := addClass .BatchNormBackward .NoCtor module "BatchNormBackward"
    (some .batch_norm_backward_properties) Option.none w
  let (module, w) := addClass .BatchNormBackwardBackward .NoCtor module
    "BatchNormBackwardBackward" (some .batch_norm_backward_backward_properties) Option.none w
  let (module, w) := addClass .AccumulateGrad .NoCtor module "AccumulateGrad"
    (some .accumulate_grad_properties) Option.none w
  let (module, w) := addClass .Add .NoCtor module "Add" Option.none Option.none w
  let (module, w) := addClass .AddBackward_Deprecated .NoCtor module "AddBackward_Deprecated"
    Option.none Option.none w
  let (module, w) := addClass .Error .NoCtor module "Error" Option.none Option.none w
  let (module, w) := addClass .DelayedError .DelayedErrorCtor module "DelayedError"
    Option.none Option.none w
  let (module, w) := addClass .Clone .NoCtor module "Clone" Option.none Option.none w
  let (module, w) := addClass .Contiguous .NoCtor module "Contiguous" Option.none Option.none w
  let (module, w) := addClass .Identity .NoCtor module "Identity" Option.none Option.none w
  let (module, w) := addClass .Transpose .NoCtor module "Transpose" Option.none Option.none w
  let (module, w) := addClass .View .NoCtor module "View" Option.none Option.none w
  let (module, w) := addClass .Expand .NoCtor module "Expand" Option.none Option.none w
  let (module, w) := addClass .Narrow .NoCtor module "Narrow" Option.none Option.none w
  let (module, w) := addClass .Cat .NoCtor module "Cat" Option.none Option.none w
  let (module, w) := addClass .Eval .NoCtor module "Eval" Option.none Option.none w
  let (module, w) := addClass .InterpreterAutogradFunction .NoCtor module
    "InterpreterAutogradFunction" Option.none Option.none w
  let (module, w) := addClass .CopyBackwards .NoCtor module "CopyBackwards"
    Option.none Option.none w
  let (module, w) := addClass .CopySlices .NoCtor module "CopySlices" Option.none Option.none w
  (module, w)

/-- The entry point `THPAutograd_initFunctions`: create the namespace module, register the
classes, run the generated registrations, and bind the namespace in the parent
module `torch._C` under `_functions`. The status of the last
`PyModule_AddObject` is discarded, as in the source. The result is the returned
flag and the state left behind. -/
def THPAutograd_initFunctions (gen : List (Nat × PyTypeObject)) (w : World) : Bool × World :=
  match PyModule_New "torch._C._functions" w with
  | Option.none => (false, w)
  | some module =>
    let (module, w) := THPAutograd_initFunctions.addClasses module w
    let w := generated.initialize_autogenerated_functions gen w
    match PyImport_ImportModule "torch._C" w with
    | Option.none => (false, w)
    | some parent =>
      let parent := (PyModule_AddObject w parent "_functions" module.toObject).2
      (true, w.storeModule "torch._C" parent)

/-- A state in which a module can be created, every insertion into a module
succeeds and the reverse registry is empty. -/
def World.start (mods : List (String × PyModule)) : World :=
  { module_alloc := true, add_object_ok := fun _ _ => true, sys_modules := mods,
    cpp_function_types := [] }

/-- The pairs the twenty `addClass` calls record, obtained by running them on
a fresh namespace module and an empty registry. -/
def registeredClasses : List (NativeClass × PyTypeObject) :=
  (THPAutograd_initFunctions.addClasses (freshModule "torch._C._functions")
    (World.start [])).2.cpp_function_types

/-- The namespace dictionary the twenty `addClass` calls build on a fresh
module when every insertion succeeds. -/
def registeredNamespace : List (String × PyObject) :=
  (THPAutograd_initFunctions.addClasses (freshModule "torch._C._functions")
    (World.start [])).1.dict

/-- The state in which registration leaves the registry. -/
def World.afterRegistration (gen : List (Nat × PyTypeObject)) (w : World) : World :=
  { w with cpp_function_types :=
      w.cpp_function_types ++ registeredClasses ++
        gen.map (fun e => (NativeClass.generated e.1, e.2)) }

/-- A state in which `torch._C` is there and every insertion succeeds except
the one of `_functions` into `torch._C`. -/
def World.parentInsertFails : World :=
  { module_alloc := true,
    add_object_ok := fun m n => !(m == "torch._C" && n == "_functions"),
    sys_modules := [("torch._C", freshModule "torch._C")],
    cpp_function_types := [] }

/-- A state in which `torch._C` is there and every insertion succeeds except
the one of `Cat` into the namespace module. -/
def World.catInsertFails : World :=
  { module_alloc := true,
    add_object_ok := fun m n => !(m == "torch._C._functions" && n == "Cat"),
    sys_modules := [("torch._C", freshModule "torch._C")],
    cpp_function_types := [] }

end Autograd

namespace Autograd

/-! ## Expected argument shapes -/

/-- The native field types a shim parses into. -/
inductive FieldKind where
  | tensor
  | bool
  | float
  | str
deriving DecidableEq, Repr

/-- Whether an interpreter value has the interpreter type of a field kind. -/
def PyObject.hasKind : PyObject → FieldKind → Bool
  | .tensor _, .tensor => true
  | .bool _, .bool => true
  | .float _, .float => true
  | .str _, .str => true
  | _, _ => false

/-- The field types `BatchNormCtor` parses, in positional order. -/
def BatchNormCtor.signature : List FieldKind :=
  [.tensor, .tensor, .bool, .float, .float, .bool]

/-- The field type `DelayedErrorCtor` parses. -/
def DelayedErrorCtor.signature : List FieldKind := [.str]

/-- Whether some position of `args` holds a value that is not of the kind the
signature expects there. -/
def mistyped (signature : List FieldKind) (args : List PyObject) : Bool :=
  (signature.zip args).any (fun p => !(p.2.hasKind p.1))

/-! ## Lemmas on the shims -/

theorem BatchNormCtor_wrong_count (args : List PyObject) (h : args.length ≠ 6) :
    BatchNormCtor args = .error (.arg_count 6 args.length) := by
  simp [BatchNormCtor, TupleParser.new, h, bind, Except.bind, throw, throwThe,
    MonadExceptOf.throw]

theorem DelayedErrorCtor_wrong_count (args : List PyObject) (h : args.length ≠ 1) :
    DelayedErrorCtor args = .error (.arg_count 1 args.length) := by
  simp [DelayedErrorCtor, TupleParser.new, h, bind, Except.bind, throw, throwThe,
    MonadExceptOf.throw]

theorem BatchNormCtor_well_typed (t1 t2 : Nat) (training : Bool) (momentum eps : Double)
    (cudnn_enabled : Bool) :
    BatchNormCtor [.tensor t1, .tensor t2, .bool training, .float momentum, .float eps,
        .bool cudnn_enabled]
      = .ok { running_mean := .impl t1, running_var := .impl t2, training := training,
              momentum := momentum, eps := eps, cudnn_enabled := cudnn_enabled } := rfl

theorem DelayedErrorCtor_well_typed (msg : String) :
    DelayedErrorCtor [.str msg] = .ok { msg := msg } := rfl

/-- On six arguments the shim either stops at a type error or every argument
has the kind its position expects. -/
theorem BatchNormCtor_six (a0 a1 a2 a3 a4 a5 : PyObject) :
    (∃ i param expected,
        BatchNormCtor [a0, a1, a2, a3, a4, a5] = .error (.arg_type i param expected)) ∨
      (a0.hasKind .tensor = true ∧ a1.hasKind .tensor = true ∧ a2.hasKind .bool = true ∧
        a3.hasKind .float = true ∧ a4.hasKind .float = true ∧ a5.hasKind .bool = true) := by
  cases a0 <;> first | exact Or.inl ⟨_, _, _, rfl⟩ | skip
  cases a1 <;> first | exact Or.inl ⟨_, _, _, rfl⟩ | skip
  cases a2 <;> first | exact Or.inl ⟨_, _, _, rfl⟩ | skip
  cases a3 <;> first | exact Or.inl ⟨_, _, _, rfl⟩ | skip
  cases a4 <;> first | exact Or.inl ⟨_, _, _, rfl⟩ | skip
  cases a5 <;> first | exact Or.inl ⟨_, _, _, rfl⟩ | skip
  exact Or.inr ⟨rfl, rfl, rfl, rfl, rfl, rfl⟩

/-- On one argument the shim either stops at a type error or the argument is a
string. -/
theorem DelayedErrorCtor_one (a0 : PyObject) :
    (∃ i param expected, DelayedErrorCtor [a0] = .error (.arg_type i param expected)) ∨
      a0.hasKind .str = true := by
  cases a0 <;> first | exact Or.inl ⟨_, _, _, rfl⟩ | skip
  exact Or.inr rfl

theorem BatchNormCtor_mistyped (args : List PyObject) (hlen : args.length = 6)
    (h : mistyped BatchNormCtor.signature args = true) :
    ∃ i param expected, BatchNormCtor args = .error (.arg_type i param expected) := by
  obtain ⟨a0, a1, a2, a3, a4, a5, rfl⟩ : ∃ a0 a1 a2 a3 a4 a5, args = [a0, a1, a2, a3, a4, a5] := by
    rcases args with _ | ⟨a0, _ | ⟨a1, _ | ⟨a2, _ | ⟨a3, _ | ⟨a4, _ | ⟨a5, _ | ⟨a6, r⟩⟩⟩⟩⟩⟩⟩ <;>
      simp at hlen
    exact ⟨a0, a1, a2, a3, a4, a5, rfl⟩
  rcases BatchNormCtor_six a0 a1 a2 a3 a4 a5 with hbad | ⟨h0, h1, h2, h3, h4, h5⟩
  · exact hbad
  · exfalso
    simp [mistyped, BatchNormCtor.signature, h0, h1, h2, h3, h4, h5] at h

theorem DelayedErrorCtor_mistyped (args : List PyObject) (hlen : args.length = 1)
    (h : mistyped DelayedErrorCtor.signature args = true) :
    ∃ i param expected, DelayedErrorCtor args = .error (.arg_type i param expected) := by
  obtain ⟨a0, rfl⟩ : ∃ a0, args = [a0] := by
    rcases args with _ | ⟨a0, _ | ⟨a1, r⟩⟩ <;> simp at hlen
    exact ⟨a0, rfl⟩
  rcases DelayedErrorCtor_one a0 with hbad | h0
  · exact hbad
  · exfalso
    simp [mistyped, DelayedErrorCtor.signature, h0] at h

/-! ## Lemmas on the getters -/

/-- A getter bracketed by the handler never lets a native exception escape. -/
theorem HANDLE_TH_ERRORS_ne_uncaught (body : Except Exn (Option PyObject)) (e : Exn) :
    HANDLE_TH_ERRORS body ≠ .uncaught e := by
  cases body <;> simp [HANDLE_TH_ERRORS]

/-- The loop invariant of `getTupleAttr`: started at index `i` on a tuple of
the right length, the loop keeps the slots below `i` and fills every slot from
`i` on with the converted element, provided no conversion raises. -/
theorem getTupleAttr.loop_spec {ElemT ConvertArgT : Type} (cast : ElemT → ConvertArgT)
    (Convert : ConvertArgT → Except Exn (Option PyObject)) (arr : List ElemT)
    (hconv : ∀ a ∈ arr, ∃ p, Convert (cast a) = .ok p) :
    ∀ (k i : Nat) (t : List (Option PyObject)), arr.length - i = k → i ≤ arr.length →
      t.length = arr.length →
      ∃ items, getTupleAttr.loop cast Convert arr i t = .ok items ∧
        items.length = arr.length ∧
        (∀ j, j < i → items[j]? = t[j]?) ∧
        (∀ j (hj : j < arr.length), i ≤ j →
          ∃ p, items[j]? = some p ∧ Convert (cast arr[j]) = .ok p) := by
  intro k
  induction k with
  | zero =>
    intro i t hk hi ht
    have hge : ¬ i < arr.length := by omega
    refine ⟨t, ?_, ht, fun _ _ => rfl, ?_⟩
    · rw [getTupleAttr.loop]
      simp [hge, pure, Except.pure]
    · intro j hj hij
      omega
  | succ k ih =>
    intro i t hk hi ht
    have hlt : i < arr.length := by omega
    obtain ⟨p, hp⟩ := hconv arr[i] (List.getElem_mem _)
    obtain ⟨items, hrun, hlen, hlow, hhigh⟩ :=
      ih (i + 1) (PyTuple_SET_ITEM t i p) (by omega) (by omega)
        (by simp [PyTuple_SET_ITEM, ht])
    refine ⟨items, ?_, hlen, ?_, ?_⟩
    · rw [getTupleAttr.loop]
      simp [hlt, hp, bind, Except.bind, hrun]
    · intro j hj
      rw [hlow j (by omega)]
      simp only [PyTuple_SET_ITEM]
      rw [List.getElem?_set_ne (by omega)]
    · intro j hj hij
      rcases Nat.eq_or_lt_of_le hij with heq | hlt2
      · subst heq
        refine ⟨p, ?_, hp⟩
        rw [hlow i (by omega)]
        simp [PyTuple_SET_ITEM, ht, hlt]
      · exact hhigh j hj hlt2

/-! ## Claims on the shims and the getters -/

/-- C1. Round trip through the constructor shims. For all values of the six
fields, `BatchNormCtor` applied to the six-element tuple of those values builds
a node, and the explicit getters of `batch_norm_forward_properties` (the
entries following the default ones) return exactly the six values that were
passed in. `DelayedErrorCtor` applied to a one-element tuple holding a string
builds the node holding that string; its type has no getter table of its own. -/
theorem ctor_getters_round_trip (t1 t2 : Nat) (training : Bool) (momentum eps : Double)
    (cudnn_enabled : Bool) (defaults : List (String × Getter BatchNormForward))
    (msg : String) :
    (∃ node : BatchNormForward,
      BatchNormCtor [.tensor t1, .tensor t2, .bool training, .float momentum, .float eps,
          .bool cudnn_enabled] = .ok node ∧
      readAll ((batch_norm_forward_properties defaults).drop defaults.length) ⟨node⟩ =
        [ ("running_mean", .ret (some (.tensor t1))),
          ("running_var", .ret (some (.tensor t2))),
          ("training", .ret (some (.bool training))),
          ("momentum", .ret (some (.float momentum))),
          ("eps", .ret (some (.float eps))),
          ("cudnn_enabled", .ret (some (.bool cudnn_enabled))) ]) ∧
    DelayedErrorCtor [.str msg] = .ok { msg := msg } := by
  refine ⟨⟨_, BatchNormCtor_well_typed t1 t2 training momentum eps cudnn_enabled, ?_⟩,
    DelayedErrorCtor_well_typed msg⟩
  simp only [batch_norm_forward_properties, List.drop_left]
  cases training <;> cases cudnn_enabled <;> rfl

/-- The scenario of the specification: `(T1, T2, true, 0.1, 1e-5, false)` with
`0.1` and `1e-5` given by their binary64 bit patterns. -/
theorem batch_norm_scenario :
    ∃ node : BatchNormForward,
      BatchNormCtor [.tensor 1, .tensor 2, .bool true, .float ⟨0x3FB999999999999A⟩,
          .float ⟨0x3EE4F8B588E368F1⟩, .bool false] = .ok node ∧
      readAll batch_norm_forward_getters ⟨node⟩ =
        [ ("running_mean", .ret (some (.tensor 1))),
          ("running_var", .ret (some (.tensor 2))),
          ("training", .ret (some (.bool true))),
          ("momentum", .ret (some (.float ⟨0x3FB999999999999A⟩))),
          ("eps", .ret (some (.float ⟨0x3EE4F8B588E368F1⟩))),
          ("cudnn_enabled", .ret (some (.bool false))) ] :=
  ⟨_, rfl, rfl⟩

/-- C2. Wrong arity or a wrongly typed element is rejected. If the argument
tuple of `BatchNormCtor` does not have exactly six elements, or some position
holds a value that is not of the kind expected there, the shim ends in an
argument error, so no node is built; likewise for `DelayedErrorCtor` and its
single string argument. -/
theorem ctor_rejects_bad_arguments (args : List PyObject) :
    ((args.length ≠ 6 ∨ mistyped BatchNormCtor.signature args = true) →
        ∃ e, BatchNormCtor args = .error e ∧ e.isArgumentError = true) ∧
    ((args.length ≠ 1 ∨ mistyped DelayedErrorCtor.signature args = true) →
        ∃ e, DelayedErrorCtor args = .error e ∧ e.isArgumentError = true) := by
  constructor
  · intro h
    by_cases hlen : args.length = 6
    · have hm : mistyped BatchNormCtor.signature args = true :=
        h.resolve_left (fun hne => hne hlen)
      obtain ⟨i, param, expected, he⟩ := BatchNormCtor_mistyped args hlen hm
      exact ⟨_, he, rfl⟩
    · exact ⟨_, BatchNormCtor_wrong_count args hlen, rfl⟩
  · intro h
    by_cases hlen : args.length = 1
    · have hm : mistyped DelayedErrorCtor.signature args = true :=
        h.resolve_left (fun hne => hne hlen)
      obtain ⟨i, param, expected, he⟩ := DelayedErrorCtor_mistyped args hlen hm
      exact ⟨_, he, rfl⟩
    · exact ⟨_, DelayedErrorCtor_wrong_count args hlen, rfl⟩

/-- Witness for C2: an integer where `momentum` expects a float, and an empty
tuple where `DelayedErrorCtor` expects one argument. -/
theorem ctor_rejects_bad_arguments_witness :
    (∃ e, BatchNormCtor [.tensor 1, .tensor 2, .bool true, .long 1, .float ⟨0⟩, .bool false]
        = .error e ∧ e.isArgumentError = true) ∧
    (∃ e, DelayedErrorCtor [] = .error e ∧ e.isArgumentError = true) :=
  ⟨(ctor_rejects_bad_arguments
      [.tensor 1, .tensor 2, .bool true, .long 1, .float ⟨0⟩, .bool false]).1
      (Or.inr rfl),
   (ctor_rejects_bad_arguments []).2 (Or.inl (by decide))⟩

/-- C4. For every node, every tensor field and every behaviour of the wrapping
helper: when the field is undefined `getTensorAttr` returns `Py_None` (a
normal return, whatever the helper would do), and when it is defined and the
helper yields the wrapper `w` of that tensor, `getTensorAttr` returns `w`. -/
theorem getTensorAttr_none_or_wrapper {T ParamsT : Type}
    (wrap : Tensor → Except Exn (Option PyObject)) (base : T → ParamsT)
    (ptr : ParamsT → Tensor) (obj : THPCppFunction T) :
    ((ptr (base obj.cdata)).defined = false →
        getTensorAttr wrap base ptr obj = .ret (some Py_None)) ∧
    (∀ w, (ptr (base obj.cdata)).defined = true → wrap (ptr (base obj.cdata)) = .ok w →
        getTensorAttr wrap base ptr obj = .ret w) := by
  constructor
  · intro h
    simp [getTensorAttr, HANDLE_TH_ERRORS, h, bind, Except.bind, pure, Except.pure]
  · intro w h hw
    simp [getTensorAttr, HANDLE_TH_ERRORS, h, hw, bind, Except.bind, pure, Except.pure]

/-- Witness for C4: the `running_mean` getter on a node whose `running_mean` is
undefined and on one whose `running_mean` is tensor `7`. -/
theorem getTensorAttr_none_or_wrapper_witness :
    getTensorAttr createPyObject BatchNormForward.toBatchNormParams BatchNormParams.running_mean
        ⟨{ running_mean := .undefined, running_var := .undefined, training := false,
           momentum := ⟨0⟩, eps := ⟨0⟩, cudnn_enabled := false }⟩ = .ret (some Py_None) ∧
    getTensorAttr createPyObject BatchNormForward.toBatchNormParams BatchNormParams.running_mean
        ⟨{ running_mean := .impl 7, running_var := .undefined, training := false,
           momentum := ⟨0⟩, eps := ⟨0⟩, cudnn_enabled := false }⟩
      = .ret (some (.tensor 7)) :=
  ⟨(getTensorAttr_none_or_wrapper createPyObject BatchNormForward.toBatchNormParams
      BatchNormParams.running_mean _).1 rfl,
   (getTensorAttr_none_or_wrapper createPyObject BatchNormForward.toBatchNormParams
      BatchNormParams.running_mean _).2 _ rfl rfl⟩

/-- The three getters bracketed by the handler turn every outcome of their
body into a return or a raised interpreter exception. -/
theorem handled_getters_never_uncaught {T ParamsT ValueT ElemT ConvertArgT : Type}
    (mem : Bool) (wrap : Tensor → Except Exn (Option PyObject)) (base : T → ParamsT)
    (ptrV : ParamsT → ValueT) (castV : ValueT → ConvertArgT)
    (ptrS : ParamsT → List ElemT) (castS : ElemT → ConvertArgT)
    (ptrT : ParamsT → Tensor)
    (Convert : ConvertArgT → Except Exn (Option PyObject)) (obj : THPCppFunction T) (e : Exn) :
    getValueAttr base ptrV castV Convert obj ≠ .uncaught e ∧
    getTensorAttr wrap base ptrT obj ≠ .uncaught e ∧
    getTupleAttr mem base ptrS castS Convert obj ≠ .uncaught e :=
  ⟨HANDLE_TH_ERRORS_ne_uncaught _ e, HANDLE_TH_ERRORS_ne_uncaught _ e,
    HANDLE_TH_ERRORS_ne_uncaught _ e⟩

/-- A conversion that raises inside `getValueAttr` or `getTensorAttr` surfaces
as a raised interpreter exception carrying the same error. -/
theorem handled_getters_raise {T ParamsT ValueT ConvertArgT : Type}
    (wrap : Tensor → Except Exn (Option PyObject)) (base : T → ParamsT)
    (ptrV : ParamsT → ValueT) (castV : ValueT → ConvertArgT) (ptrT : ParamsT → Tensor)
    (Convert : ConvertArgT → Except Exn (Option PyObject)) (obj : THPCppFunction T) (e : Exn) :
    (Convert (castV (ptrV (base obj.cdata))) = .error e →
        getValueAttr base ptrV castV Convert obj = .raised e) ∧
    ((ptrT (base obj.cdata)).defined = true → wrap (ptrT (base obj.cdata)) = .error e →
        getTensorAttr wrap base ptrT obj = .raised e) := by
  constructor
  · intro h
    simp [getValueAttr, HANDLE_TH_ERRORS, h]
  · intro hd h
    simp [getTensorAttr, HANDLE_TH_ERRORS, hd, h, bind, Except.bind]

/-- An exception raised by the wrapping helper leaves `accumulateGradVar`. -/
theorem accumulateGradVar_uncaught
    (THPVariable_Wrap : Variable → Except Exn (Option PyObject))
    (obj : THPCppFunction AccumulateGrad) (e : Exn)
    (h : THPVariable_Wrap obj.cdata.variable_ = .error e) :
    accumulateGradVar THPVariable_Wrap obj = .uncaught e := by
  simp [accumulateGradVar, unhandled, h]

/-- C8, the code at the failing input. With a conversion that raises the
exception `e`, the three getters bracketed by the handler return `NULL` with
`e` raised in the interpreter, whereas `accumulateGradVar`, whose body is not
bracketed, lets `e` propagate out of the getter. -/
theorem accumulateGradVar_exception_escapes :
    getValueAttr id id id (fun _ : Int => .error (.runtime_error "conversion failed"))
        ⟨(0 : Int)⟩ = .raised (.runtime_error "conversion failed") ∧
    getTensorAttr (fun _ => .error (.runtime_error "conversion failed")) id id
        ⟨Tensor.impl 0⟩ = .raised (.runtime_error "conversion failed") ∧
    getTupleAttr true id id id (fun _ : Int => .error (.runtime_error "conversion failed"))
        ⟨[(0 : Int)]⟩ = .raised (.runtime_error "conversion failed") ∧
    accumulateGradVar (fun _ => .error (.runtime_error "conversion failed"))
        ⟨{ variable_ := Tensor.impl 0 }⟩ = .uncaught (.runtime_error "conversion failed") := by
  refine ⟨rfl, rfl, ?_, rfl⟩
  simp [getTupleAttr, getTupleAttr.loop, HANDLE_TH_ERRORS, PyTuple_New, bind, Except.bind]

/-- C9. When the tuple can be allocated and `Convert` raises on no element of
the sequence field, `getTupleAttr` returns a tuple with as many slots as the
field has elements, and for every index `i` slot `i` holds `Convert` of the
`i`-th element: length and order are preserved, and an empty field yields an
empty tuple. -/
theorem getTupleAttr_preserves_order {T ParamsT ElemT ConvertArgT : Type}
    (base : T → ParamsT) (ptr : ParamsT → List ElemT) (cast : ElemT → ConvertArgT)
    (Convert : ConvertArgT → Except Exn (Option PyObject)) (obj : THPCppFunction T)
    (hconv : ∀ a ∈ ptr (base obj.cdata), ∃ p, Convert (cast a) = .ok p) :
    ∃ items, getTupleAttr true base ptr cast Convert obj = .ret (some (.tuple items)) ∧
      items.length = (ptr (base obj.cdata)).length ∧
      (∀ i (hi : i < (ptr (base obj.cdata)).length),
        ∃ p, items[i]? = some p ∧ Convert (cast (ptr (base obj.cdata))[i]) = .ok p) ∧
      (ptr (base obj.cdata) = [] → items = []) := by
  obtain ⟨items, hrun, hlen, _, hhigh⟩ :=
    getTupleAttr.loop_spec cast Convert (ptr (base obj.cdata)) hconv
      ((ptr (base obj.cdata)).length - 0) 0
      (List.replicate (ptr (base obj.cdata)).length Option.none) rfl (Nat.zero_le _)
      (by simp)
  refine ⟨items, ?_, hlen, fun i hi => hhigh i hi (Nat.zero_le _), ?_⟩
  · simp [getTupleAttr, HANDLE_TH_ERRORS, PyTuple_New, bind, Except.bind, hrun, pure,
      Except.pure]
  · intro hnil
    rw [hnil] at hlen
    exact List.length_eq_zero.mp hlen

/-- Witness for C9: a field holding `3, 4` converted by `PortablePyInt_FromLong`. -/
theorem getTupleAttr_preserves_order_witness :
    (∀ a ∈ ([3, 4] : List Int), ∃ p, PortablePyInt_FromLong (id a) = .ok p) ∧
    ∃ items, getTupleAttr true id id id PortablePyInt_FromLong
        (⟨[3, 4]⟩ : THPCppFunction (List Int)) = .ret (some (.tuple items)) ∧
      items.length = ([3, 4] : List Int).length ∧
      (∀ i (hi : i < ([3, 4] : List Int).length),
        ∃ p, items[i]? = some p ∧ PortablePyInt_FromLong (id ([3, 4] : List Int)[i]) = .ok p) ∧
      (([3, 4] : List Int) = [] → items = []) :=
  ⟨fun a _ => ⟨some (.long a), rfl⟩,
   getTupleAttr_preserves_order id id id PortablePyInt_FromLong ⟨[3, 4]⟩
     (fun a _ => ⟨some (.long a), rfl⟩)⟩

/-! ## Lemmas on registration -/

theorem PyDict_GetItemString_set (d : List (String × PyObject)) (key : String) (v : PyObject) :
    PyDict_GetItemString (PyDict_SetItemString d key v) key = some v := by
  unfold PyDict_GetItemString PyDict_SetItemString
  induction d with
  | nil => simp
  | cons e d ih =>
    obtain ⟨k, x⟩ := e
    by_cases he : k = key
    · subst he
      simp
    · have hne : (key == k) = false := by
        simp only [beq_eq_false_iff_ne, ne_eq]
        exact fun h => he h.symm
      have hne2 : (k == key) = false := by
        simp only [beq_eq_false_iff_ne, ne_eq]
        exact he
      by_cases hany : (d.any (fun e => e.1 == key)) = true
      · simp only [hany, if_true] at ih
        simp only [List.any_cons, hne2, Bool.false_or, hany, if_true, List.map_cons,
          Bool.false_eq_true, if_false, List.lookup_cons, hne]
        exact ih
      · simp only [Bool.not_eq_true] at hany
        simp only [hany, Bool.false_eq_true, if_false] at ih
        simp only [List.any_cons, hne2, Bool.false_or, hany, Bool.false_eq_true, if_false,
          List.cons_append, List.lookup_cons, hne]
        exact ih

theorem lookup_storeModule (mods : List (String × PyModule)) (key : String)
    (old m : PyModule) (h : mods.lookup key = some old) :
    (mods.map (fun e => if e.1 == key then (e.1, m) else e)).lookup key = some m := by
  induction mods with
  | nil => simp at h
  | cons e mods ih =>
    obtain ⟨k, x⟩ := e
    by_cases he : k = key
    · subst he
      simp
    · have hne : (key == k) = false := by
        simp only [beq_eq_false_iff_ne, ne_eq]
        exact fun h => he h.symm
      have hne2 : (k == key) = false := by
        simp only [beq_eq_false_iff_ne, ne_eq]
        exact he
      simp only [List.lookup_cons, hne] at h
      simp only [List.map_cons, hne2, Bool.false_eq_true, if_false, List.lookup_cons, hne]
      exact ih h

/-- A successful `PyModule_AddObject` leaves the name bound to the value. -/
theorem PyModule_AddObject_binds (w : World) (module : PyModule) (name : String)
    (value : PyObject) (h : w.add_object_ok module.name name = true) :
    (PyModule_AddObject w module name value).1 = 0 ∧
    PyDict_GetItemString (PyModule_AddObject w module name value).2.dict name = some value := by
  simp only [PyModule_AddObject, h, if_true]
  exact ⟨trivial, PyDict_GetItemString_set module.dict name value⟩

/-- A failed `PyModule_AddObject` leaves the module as it was. -/
theorem PyModule_AddObject_fails (w : World) (module : PyModule) (name : String)
    (value : PyObject) (h : w.add_object_ok module.name name = false) :
    PyModule_AddObject w module name value = (-1, module) := by
  simp [PyModule_AddObject, h]

/-- Whatever the module and the outcome of the insertions, the twenty calls
append `registeredClasses` to the registry and touch nothing else of the state. -/
theorem addClasses_world (module : PyModule) (w : World) :
    (THPAutograd_initFunctions.addClasses module w).2 =
      { w with cpp_function_types := w.cpp_function_types ++ registeredClasses } := by
  simp only [THPAutograd_initFunctions.addClasses, addClass, registerCppFunction,
    List.append_assoc, List.cons_append, List.nil_append]
  rfl

/-- When every insertion into the namespace module succeeds, the twenty calls
leave a fresh namespace module holding `registeredNamespace`. -/
theorem addClasses_all_inserted (w : World)
    (h : ∀ n, w.add_object_ok "torch._C._functions" n = true) :
    (THPAutograd_initFunctions.addClasses (freshModule "torch._C._functions") w).1 =
      { name := "torch._C._functions", dict := registeredNamespace } := by
  simp only [THPAutograd_initFunctions.addClasses, addClass, registerCppFunction,
    PyModule_AddObject, freshModule, h, if_true]
  rfl

/-- The generated registrations append their pairs to the registry. -/
theorem initialize_autogenerated_functions_eq (gen : List (Nat × PyTypeObject)) (w : World) :
    generated.initialize_autogenerated_functions gen w =
      { w with cpp_function_types :=
          w.cpp_function_types ++ gen.map (fun e => (NativeClass.generated e.1, e.2)) } := by
  unfold generated.initialize_autogenerated_functions
  induction gen generalizing w with
  | nil => simp
  | cons e gen ih =>
    simp only [List.foldl_cons, List.map_cons]
    rw [ih]
    simp [registerCppFunction]

theorem THPAutograd_initFunctions_no_module (gen : List (Nat × PyTypeObject)) (w : World)
    (h : w.module_alloc = false) : THPAutograd_initFunctions gen w = (false, w) := by
  simp [THPAutograd_initFunctions, PyModule_New, h]

theorem THPAutograd_initFunctions_no_parent (gen : List (Nat × PyTypeObject)) (w : World)
    (h : w.module_alloc = true) (hp : PyImport_ImportModule "torch._C" w = Option.none) :
    THPAutograd_initFunctions gen w = (false, w.afterRegistration gen) := by
  unfold PyImport_ImportModule at hp
  have hw := addClasses_world (freshModule "torch._C._functions") w
  unfold THPAutograd_initFunctions
  simp only [PyModule_New, h, if_true]
  rcases hns : THPAutograd_initFunctions.addClasses (freshModule "torch._C._functions") w
    with ⟨ns, w2⟩
  rw [hns] at hw
  simp only at hw
  subst hw
  simp only [initialize_autogenerated_functions_eq, PyImport_ImportModule, hp,
    World.afterRegistration]

theorem THPAutograd_initFunctions_ok (gen : List (Nat × PyTypeObject)) (w : World)
    (parent : PyModule)
    (h : w.module_alloc = true) (hp : PyImport_ImportModule "torch._C" w = some parent) :
    THPAutograd_initFunctions gen w =
      (true, (w.afterRegistration gen).storeModule "torch._C"
        (PyModule_AddObject w parent "_functions"
          (THPAutograd_initFunctions.addClasses (freshModule "torch._C._functions")
            w).1.toObject).2) := by
  unfold PyImport_ImportModule at hp
  have hw := addClasses_world (freshModule "torch._C._functions") w
  unfold THPAutograd_initFunctions
  simp only [PyModule_New, h, if_true]
  rcases hns : THPAutograd_initFunctions.addClasses (freshModule "torch._C._functions") w
    with ⟨ns, w2⟩
  rw [hns] at hw
  simp only at hw
  subst hw
  simp only [initialize_autogenerated_functions_eq, PyImport_ImportModule, hp,
    World.afterRegistration]
  rfl

theorem THPAutograd_initFunctions_registry (gen : List (Nat × PyTypeObject)) (w : World)
    (h : w.module_alloc = true) :
    (THPAutograd_initFunctions gen w).2.cpp_function_types =
      w.cpp_function_types ++ registeredClasses ++
        gen.map (fun e => (NativeClass.generated e.1, e.2)) := by
  cases hp : PyImport_ImportModule "torch._C" w with
  | none => rw [THPAutograd_initFunctions_no_parent gen w h hp]; rfl
  | some parent => rw [THPAutograd_initFunctions_ok gen w parent h hp]; rfl

/-- The returned flag: false exactly when the namespace module cannot be
created or `torch._C` cannot be located, true otherwise. -/
theorem THPAutograd_initFunctions_flag (gen : List (Nat × PyTypeObject)) (w : World) :
    ((THPAutograd_initFunctions gen w).1 = false ↔
      (PyModule_New "torch._C._functions" w = Option.none ∨
        PyImport_ImportModule "torch._C" w = Option.none)) ∧
    ((THPAutograd_initFunctions gen w).1 = true ↔
      (PyModule_New "torch._C._functions" w ≠ Option.none ∧
        PyImport_ImportModule "torch._C" w ≠ Option.none)) := by
  constructor
  · cases h : w.module_alloc with
    | false =>
      rw [THPAutograd_initFunctions_no_module gen w h]
      simp [PyModule_New, h]
    | true =>
      cases hp : PyImport_ImportModule "torch._C" w with
      | none =>
        rw [THPAutograd_initFunctions_no_parent gen w h hp]
        simp
      | some parent =>
        rw [THPAutograd_initFunctions_ok gen w parent h hp]
        simp [PyModule_New, h]
  · cases h : w.module_alloc with
    | false =>
      rw [THPAutograd_initFunctions_no_module gen w h]
      simp [PyModule_New, h]
    | true =>
      cases hp : PyImport_ImportModule "torch._C" w with
      | none =>
        rw [THPAutograd_initFunctions_no_parent gen w h hp]
        simp
      | some parent =>
        rw [THPAutograd_initFunctions_ok gen w parent h hp]
        simp [PyModule_New, h]

/-- A run that returns true found `torch._C`; when the insertion of
`_functions` into it succeeds, the namespace module is bound there. -/
theorem THPAutograd_initFunctions_binds (gen : List (Nat × PyTypeObject)) (w : World)
    (hok : (THPAutograd_initFunctions gen w).1 = true) :
    w.module_alloc = true ∧
    ∃ parent, PyImport_ImportModule "torch._C" w = some parent ∧
      (w.add_object_ok parent.name "_functions" = true →
        ∃ after, PyImport_ImportModule "torch._C" (THPAutograd_initFunctions gen w).2
            = some after ∧
          PyDict_GetItemString after.dict "_functions" =
            some (THPAutograd_initFunctions.addClasses (freshModule "torch._C._functions")
              w).1.toObject) := by
  cases h : w.module_alloc with
  | false =>
    rw [THPAutograd_initFunctions_no_module gen w h] at hok
    exact absurd hok Bool.false_ne_true
  | true =>
    refine ⟨rfl, ?_⟩
    cases hp : PyImport_ImportModule "torch._C" w with
    | none =>
      rw [THPAutograd_initFunctions_no_parent gen w h hp] at hok
      exact absurd hok Bool.false_ne_true
    | some parent =>
      refine ⟨parent, rfl, fun hadd => ?_⟩
      rw [THPAutograd_initFunctions_ok gen w parent h hp]
      refine ⟨_, lookup_storeModule w.sys_modules "torch._C" parent _ hp, ?_⟩
      exact (PyModule_AddObject_binds w parent "_functions" _ hadd).2

/-- The recorded pairs, written out. -/
theorem registeredClasses_eq :
    registeredClasses =
      [ (.BatchNormForward, createForwardFunctionPyTypeObject .BatchNormCtor "BatchNorm"
          (some .batch_norm_forward_properties) Option.none),
        (.BatchNormBackward, createForwardFunctionPyTypeObject .NoCtor "BatchNormBackward"
          (some .batch_norm_backward_properties) Option.none),
        (.BatchNormBackwardBackward, createForwardFunctionPyTypeObject .NoCtor
          "BatchNormBackwardBackward" (some .batch_norm_backward_backward_properties)
          Option.none),
        (.AccumulateGrad, createForwardFunctionPyTypeObject .NoCtor "AccumulateGrad"
          (some .accumulate_grad_properties) Option.none),
        (.Add, createForwardFunctionPyTypeObject .NoCtor "Add" Option.none Option.none),
        (.AddBackward_Deprecated, createForwardFunctionPyTypeObject .NoCtor
          "AddBackward_Deprecated" Option.none Option.none),
        (.Error, createForwardFunctionPyTypeObject .NoCtor "Error" Option.none Option.none),
        (.DelayedError, createForwardFunctionPyTypeObject .DelayedErrorCtor "DelayedError"
          Option.none Option.none),
        (.Clone, createForwardFunctionPyTypeObject .NoCtor "Clone" Option.none Option.none),
        (.Contiguous, createForwardFunctionPyTypeObject .NoCtor "Contiguous" Option.none
          Option.none),
        (.Identity, createForwardFunctionPyTypeObject .NoCtor "Identity" Option.none
          Option.none),
        (.Transpose, createForwardFunctionPyTypeObject .NoCtor "Transpose" Option.none
          Option.none),
        (.View, createForwardFunctionPyTypeObject .NoCtor "View" Option.none Option.none),
        (.Expand, createForwardFunctionPyTypeObject .NoCtor "Expand" Option.none Option.none),
        (.Narrow, createForwardFunctionPyTypeObject .NoCtor "Narrow" Option.none Option.none),
        (.Cat, createForwardFunctionPyTypeObject .NoCtor "Cat" Option.none Option.none),
        (.Eval, createForwardFunctionPyTypeObject .NoCtor "Eval" Option.none Option.none),
        (.InterpreterAutogradFunction, createForwardFunctionPyTypeObject .NoCtor
          "InterpreterAutogradFunction" Option.none Option.none),
        (.CopyBackwards, createForwardFunctionPyTypeObject .NoCtor "CopyBackwards" Option.none
          Option.none),
        (.CopySlices, createForwardFunctionPyTypeObject .NoCtor "CopySlices" Option.none
          Option.none) ] := rfl

/-- When every insertion succeeds, every recorded class is bound in the
namespace under its name, to the type object recorded for it. -/
theorem registeredNamespace_binds :
    ∀ e ∈ registeredClasses,
      PyDict_GetItemString registeredNamespace e.2.tp_name = some (.type e.2) := by
  intro e he
  rw [registeredClasses_eq] at he
  simp only [List.mem_cons, List.mem_singleton, List.not_mem_nil, or_false] at he
  rcases he with h | h | h | h | h | h | h | h | h | h | h | h | h | h | h | h | h | h | h | h <;>
    (subst h; rfl)

theorem registeredClasses_lookup :
    ∀ e ∈ registeredClasses, registeredClasses.reverse.lookup e.1 = some e.2 := by decide

theorem registeredClasses_once :
    ∀ e ∈ registeredClasses,
      (registeredClasses.filter (fun x => x.1 == e.1)).length = 1 := by decide

theorem registeredClasses_not_generated :
    ∀ e ∈ registeredClasses, e.1.isGenerated = false := by decide

/-- In a registry that ends with `registeredClasses` followed by pairs of
generated classes, looking up one of the twenty classes finds its pair,
whatever the registry held before. -/
theorem lookup_after_registration (old : List (NativeClass × PyTypeObject))
    (gen : List (Nat × PyTypeObject)) (w : World)
    (hw : w.cpp_function_types =
      old ++ registeredClasses ++ gen.map (fun e => (NativeClass.generated e.1, e.2))) :
    ∀ e ∈ registeredClasses, lookupCppFunction w e.1 = some e.2 := by
  intro e he
  unfold lookupCppFunction
  rw [hw, List.reverse_append, List.reverse_append, List.lookup_append,
    List.lookup_append, registeredClasses_lookup e he]
  have hnone : (gen.map (fun e => (NativeClass.generated e.1, e.2))).reverse.lookup e.1
      = Option.none := by
    rw [List.lookup_eq_none_iff]
    intro p hp
    obtain ⟨y, _, rfl⟩ := List.mem_map.mp (List.mem_reverse.mp hp)
    have hgen := registeredClasses_not_generated e he
    simp only [bne_iff_ne, ne_eq]
    intro hxe
    rw [hxe] at hgen
    exact absurd hgen (by simp [NativeClass.isGenerated])
  rw [hnone]
  rfl

/-- Looking up the class `addClass` has just recorded finds the type object
`addClass` built, whatever the registry held before. -/
theorem lookup_after_addClass (C : NativeClass) (T : Ctor) (module : PyModule) (name : String)
    (function_properties : Option GetSetTable) (function_methods : Option (List String))
    (w : World) :
    lookupCppFunction (addClass C T module name function_properties function_methods w).2 C =
      some (createForwardFunctionPyTypeObject T name function_properties function_methods) := by
  simp [lookupCppFunction, addClass, registerCppFunction]

/-- When every insertion succeeds, a run that returns true leaves the
namespace module bound under `_functions` in `torch._C`; it binds each of the
twenty names to the type object the registry returns for the class. -/
theorem namespace_when_inserted (gen : List (Nat × PyTypeObject)) (w : World)
    (hall : ∀ m n, w.add_object_ok m n = true)
    (hok : (THPAutograd_initFunctions gen w).1 = true) :
    ∃ after,
      PyImport_ImportModule "torch._C" (THPAutograd_initFunctions gen w).2 = some after ∧
      PyDict_GetItemString after.dict "_functions" =
        some (.module "torch._C._functions" registeredNamespace) ∧
      (registeredClasses.map (fun e => e.2.tp_name)).Nodup ∧
      ∀ e ∈ registeredClasses,
        PyDict_GetItemString registeredNamespace e.2.tp_name = some (.type e.2) ∧
        lookupCppFunction (THPAutograd_initFunctions gen w).2 e.1 = some e.2 := by
  obtain ⟨halloc, parent, _, hbind⟩ := THPAutograd_initFunctions_binds gen w hok
  obtain ⟨after, hafter, hbound⟩ := hbind (hall _ _)
  rw [addClasses_all_inserted w (fun n => hall _ n)] at hbound
  refine ⟨after, hafter, hbound, by decide, fun e he => ⟨registeredNamespace_binds e he, ?_⟩⟩
  exact lookup_after_registration w.cpp_function_types gen _
    (THPAutograd_initFunctions_registry gen w halloc) e he

/-! ## Claims on registration -/

/-- C3. `NoCtor` raises the runtime error "Cannot construct" on every argument
tuple and never returns a node. Every class recorded by the twenty `addClass`
calls other than `BatchNormForward` and `DelayedError` has `NoCtor` as its
shim, so instantiating its type fails with that error; there are eighteen such
classes, and the two remaining ones carry the two constructor shims. -/
theorem NoCtor_cannot_construct (args : List PyObject) :
    NoCtor args = .error (.runtime_error "Cannot construct") ∧
    (∀ e ∈ registeredClasses, e.1 ≠ .BatchNormForward → e.1 ≠ .DelayedError →
      e.2.tp_new = .NoCtor ∧
      e.2.tp_new.call args = .error (.runtime_error "Cannot construct")) ∧
    (registeredClasses.filter (fun e => e.2.tp_new == .NoCtor)).length = 18 ∧
    (registeredClasses.filter (fun e => e.2.tp_new != .NoCtor)).map
        (fun e => (e.1, e.2.tp_new)) =
      [(.BatchNormForward, .BatchNormCtor), (.DelayedError, .DelayedErrorCtor)] := by
  refine ⟨rfl, ?_, by decide, by decide⟩
  intro e he h1 h2
  have hno : ∀ e ∈ registeredClasses, e.1 ≠ .BatchNormForward → e.1 ≠ .DelayedError →
      e.2.tp_new = .NoCtor := by decide
  have h := hno e he h1 h2
  refine ⟨h, ?_⟩
  rw [h]
  rfl

/-- Witness for C3: instantiating `Add` with one integer argument. -/
theorem NoCtor_cannot_construct_witness :
    (createForwardFunctionPyTypeObject .NoCtor "Add" Option.none Option.none).tp_new.call
      [.long 1] = .error (.runtime_error "Cannot construct") :=
  ((NoCtor_cannot_construct [.long 1]).2.1
    (.Add, createForwardFunctionPyTypeObject .NoCtor "Add" Option.none Option.none)
    (by decide) (by decide) (by decide)).2

/-- C5. The twenty `addClass` calls of `THPAutograd_initFunctions` record
exactly the twenty pairs written out below: each class identity with the type
object `addClass` builds from the shim, the name and the getter table of its
call. Started on an empty reverse registry, whatever the modules present and
the outcome of the insertions, the calls leave exactly these pairs, one per
registered class, with pairwise distinct class identities. When the function
has run, the registry holds these pairs followed by those of the generated
classes; each of the twenty classes has exactly one entry, and looking it up
returns the type object written out for it. For every single `addClass`
call, looking up the class it recorded returns the type object it built. -/
theorem registry_one_entry_per_class (gen : List (Nat × PyTypeObject))
    (mods : List (String × PyModule)) (ok : String → String → Bool) (module : PyModule) :
    registeredClasses =
      [ (.BatchNormForward, createForwardFunctionPyTypeObject .BatchNormCtor "BatchNorm"
          (some .batch_norm_forward_properties) Option.none),
        (.BatchNormBackward, createForwardFunctionPyTypeObject .NoCtor "BatchNormBackward"
          (some .batch_norm_backward_properties) Option.none),
        (.BatchNormBackwardBackward, createForwardFunctionPyTypeObject .NoCtor
          "BatchNormBackwardBackward" (some .batch_norm_backward_backward_properties)
          Option.none),
        (.AccumulateGrad, createForwardFunctionPyTypeObject .NoCtor "AccumulateGrad"
          (some .accumulate_grad_properties) Option.none),
        (.Add, createForwardFunctionPyTypeObject .NoCtor "Add" Option.none Option.none),
        (.AddBackward_Deprecated, createForwardFunctionPyTypeObject .NoCtor
          "AddBackward_Deprecated" Option.none Option.none),
        (.Error, createForwardFunctionPyTypeObject .NoCtor "Error" Option.none Option.none),
        (.DelayedError, createForwardFunctionPyTypeObject .DelayedErrorCtor "DelayedError"
          Option.none Option.none),
        (.Clone, createForwardFunctionPyTypeObject .NoCtor "Clone" Option.none Option.none),
        (.Contiguous, createForwardFunctionPyTypeObject .NoCtor "Contiguous" Option.none
          Option.none),
        (.Identity, createForwardFunctionPyTypeObject .NoCtor "Identity" Option.none
          Option.none),
        (.Transpose, createForwardFunctionPyTypeObject .NoCtor "Transpose" Option.none
          Option.none),
        (.View, createForwardFunctionPyTypeObject .NoCtor "View" Option.none Option.none),
        (.Expand, createForwardFunctionPyTypeObject .NoCtor "Expand" Option.none Option.none),
        (.Narrow, createForwardFunctionPyTypeObject .NoCtor "Narrow" Option.none Option.none),
        (.Cat, createForwardFunctionPyTypeObject .NoCtor "Cat" Option.none Option.none),
        (.Eval, createForwardFunctionPyTypeObject .NoCtor "Eval" Option.none Option.none),
        (.InterpreterAutogradFunction, createForwardFunctionPyTypeObject .NoCtor
          "InterpreterAutogradFunction" Option.none Option.none),
        (.CopyBackwards, createForwardFunctionPyTypeObject .NoCtor "CopyBackwards" Option.none
          Option.none),
        (.CopySlices, createForwardFunctionPyTypeObject .NoCtor "CopySlices" Option.none
          Option.none) ] ∧
    (THPAutograd_initFunctions.addClasses module
        { module_alloc := true, add_object_ok := ok, sys_modules := mods,
          cpp_function_types := [] }).2.cpp_function_types = registeredClasses ∧
    registeredClasses.length = 20 ∧
    (registeredClasses.map Prod.fst).Nodup ∧
    (THPAutograd_initFunctions gen
        { module_alloc := true, add_object_ok := ok, sys_modules := mods,
          cpp_function_types := [] }).2.cpp_function_types =
      registeredClasses ++ gen.map (fun e => (NativeClass.generated e.1, e.2)) ∧
    (∀ e ∈ registeredClasses,
      lookupCppFunction (THPAutograd_initFunctions gen
        { module_alloc := true, add_object_ok := ok, sys_modules := mods,
          cpp_function_types := [] }).2 e.1 = some e.2 ∧
      ((THPAutograd_initFunctions gen
        { module_alloc := true, add_object_ok := ok, sys_modules := mods,
          cpp_function_types := [] }).2.cpp_function_types.filter
        (fun x => x.1 == e.1)).length = 1) ∧
    (∀ (C : NativeClass) (T : Ctor) (m : PyModule) (name : String)
        (function_properties : Option GetSetTable) (function_methods : Option (List String))
        (w : World),
      lookupCppFunction (addClass C T m name function_properties function_methods w).2 C =
        some (createForwardFunctionPyTypeObject T name function_properties
          function_methods)) := by
  have hreg : (THPAutograd_initFunctions gen
      { module_alloc := true, add_object_ok := ok, sys_modules := mods,
        cpp_function_types := [] }).2.cpp_function_types =
      registeredClasses ++ gen.map (fun e => (NativeClass.generated e.1, e.2)) := by
    rw [THPAutograd_initFunctions_registry gen _ rfl]
    rfl
  refine ⟨registeredClasses_eq, ?_, by decide, by decide, hreg, ?_, lookup_after_addClass⟩
  · rw [addClasses_world]
    rfl
  · intro e he
    refine ⟨?_, ?_⟩
    · exact lookup_after_registration [] gen _ (by rw [hreg]; rfl) e he
    · rw [hreg, List.filter_append, List.length_append, registeredClasses_once e he]
      have hnil : (gen.map (fun e => (NativeClass.generated e.1, e.2))).filter
          (fun x => x.1 == e.1) = [] := by
        rw [List.filter_eq_nil_iff]
        intro x hx
        obtain ⟨y, _, rfl⟩ := List.mem_map.mp hx
        intro hxe
        have hgen := registeredClasses_not_generated e he
        rw [← eq_of_beq hxe] at hgen
        exact absurd hgen (by simp [NativeClass.isGenerated])
      rw [hnil]
      rfl

/-- Witness for C5: the entry of `Cat` after a run in which one generated class
is registered as well, and the entry `addClass` records for `BatchNorm` over a
registry that already holds a stale one. -/
theorem registry_one_entry_per_class_witness :
    lookupCppFunction
        (THPAutograd_initFunctions
          [(0, createForwardFunctionPyTypeObject .NoCtor "AbsBackward" Option.none Option.none)]
          { module_alloc := true, add_object_ok := fun _ _ => true, sys_modules := [],
            cpp_function_types := [] }).2 .Cat =
      some (createForwardFunctionPyTypeObject .NoCtor "Cat" Option.none Option.none) ∧
    lookupCppFunction
        (addClass .BatchNormForward .BatchNormCtor (freshModule "torch._C._functions")
          "BatchNorm" (some .batch_norm_forward_properties) Option.none
          { module_alloc := true, add_object_ok := fun _ _ => true, sys_modules := [],
            cpp_function_types :=
              [(.BatchNormForward,
                createForwardFunctionPyTypeObject .NoCtor "Stale" Option.none Option.none)] }).2
        .BatchNormForward =
      some (createForwardFunctionPyTypeObject .BatchNormCtor "BatchNorm"
        (some .batch_norm_forward_properties) Option.none) :=
  ⟨((registry_one_entry_per_class
      [(0, createForwardFunctionPyTypeObject .NoCtor "AbsBackward" Option.none Option.none)]
      [] (fun _ _ => true) (freshModule "torch._C._functions")).2.2.2.2.2.1
      (.Cat, createForwardFunctionPyTypeObject .NoCtor "Cat" Option.none Option.none)
      (by decide)).1,
   (registry_one_entry_per_class [] [] (fun _ _ => true)
      (freshModule "torch._C._functions")).2.2.2.2.2.2 _ _ _ _ _ _ _⟩

set_option maxRecDepth 8000

/-- C6, the code at the failing input. In a state where the namespace module
can be created and `torch._C` is found, but the insertion of `_functions` into
`torch._C` fails, `THPAutograd_initFunctions` still returns true, and
afterwards `torch._C` has no attribute `_functions`: the status of the last
`PyModule_AddObject` is not looked at. -/
theorem init_true_namespace_unbound :
    (PyModule_AddObject World.parentInsertFails (freshModule "torch._C") "_functions"
        (freshModule "torch._C._functions").toObject).1 = -1 ∧
    (THPAutograd_initFunctions [] World.parentInsertFails).1 = true ∧
    ∃ parent,
      PyImport_ImportModule "torch._C"
        (THPAutograd_initFunctions [] World.parentInsertFails).2 = some parent ∧
      PyDict_GetItemString parent.dict "_functions" = Option.none :=
  ⟨rfl, rfl, _, rfl, rfl⟩

/-- C7, the code at the failing input. In a state where every insertion
succeeds except the one of `Cat` into the namespace module,
`THPAutograd_initFunctions` returns true and binds the namespace module under
`_functions`, but the namespace has no attribute `Cat`, while the reverse
registry does hold the type object of the class `Cat`: the status of the
`PyModule_AddObject` call in `addClass` is not looked at. -/
theorem init_true_class_unbound :
    (THPAutograd_initFunctions [] World.catInsertFails).1 = true ∧
    ∃ parent dict,
      PyImport_ImportModule "torch._C"
        (THPAutograd_initFunctions [] World.catInsertFails).2 = some parent ∧
      PyDict_GetItemString parent.dict "_functions" =
        some (.module "torch._C._functions" dict) ∧
      PyDict_GetItemString dict "Cat" = Option.none ∧
      PyDict_GetItemString dict "Eval" =
        some (.type (createForwardFunctionPyTypeObject .NoCtor "Eval" Option.none
          Option.none)) ∧
      lookupCppFunction (THPAutograd_initFunctions [] World.catInsertFails).2 .Cat =
        some (createForwardFunctionPyTypeObject .NoCtor "Cat" Option.none Option.none) :=
  ⟨rfl, _, _, rfl, rfl, rfl, rfl, rfl⟩

/-- C10. Failure is atomic on the early path only. When the namespace module
cannot be created, `THPAutograd_initFunctions` returns false and leaves the
state, hence the reverse registry, unchanged. When the module is created but
`torch._C` cannot be imported, it returns false after the twenty pairs have
been appended to the reverse registry, and they stay there. -/
theorem init_failure_registry (gen : List (Nat × PyTypeObject)) (w : World) :
    (PyModule_New "torch._C._functions" w = Option.none →
      THPAutograd_initFunctions gen w = (false, w)) ∧
    (PyModule_New "torch._C._functions" w ≠ Option.none →
      PyImport_ImportModule "torch._C" w = Option.none →
      (THPAutograd_initFunctions gen w).1 = false ∧
      (THPAutograd_initFunctions gen w).2.cpp_function_types =
        w.cpp_function_types ++ registeredClasses ++
          gen.map (fun e => (NativeClass.generated e.1, e.2)) ∧
      registeredClasses.length = 20 ∧
      ∀ e ∈ registeredClasses, e ∈ (THPAutograd_initFunctions gen w).2.cpp_function_types) := by
  constructor
  · intro h
    have halloc : w.module_alloc = false := by
      cases hm : w.module_alloc with
      | false => rfl
      | true => simp [PyModule_New, hm] at h
    exact THPAutograd_initFunctions_no_module gen w halloc
  · intro h hp
    have halloc : w.module_alloc = true := by
      cases hm : w.module_alloc with
      | true => rfl
      | false => simp [PyModule_New, hm] at h
    have hreg := THPAutograd_initFunctions_registry gen w halloc
    refine ⟨?_, hreg, by decide, ?_⟩
    · rw [THPAutograd_initFunctions_no_parent gen w halloc hp]
    · intro e he
      rw [hreg]
      exact List.mem_append_left _ (List.mem_append_right _ he)

/-- Witness for C10: a state where no module can be created, and a state where
the module is created but `torch._C` is not there. -/
theorem init_failure_registry_witness :
    THPAutograd_initFunctions []
        { module_alloc := false, add_object_ok := fun _ _ => true, sys_modules := [],
          cpp_function_types := [] } =
      (false, { module_alloc := false, add_object_ok := fun _ _ => true, sys_modules := [],
                cpp_function_types := [] }) ∧
    (THPAutograd_initFunctions [] (World.start [])).1 = false ∧
    (THPAutograd_initFunctions [] (World.start [])).2.cpp_function_types.length = 20 :=
  ⟨(init_failure_registry []
      { module_alloc := false, add_object_ok := fun _ _ => true, sys_modules := [],
        cpp_function_types := [] }).1 rfl,
   ((init_failure_registry [] (World.start [])).2 (by simp [PyModule_New, World.start]) rfl).1,
   by
     rw [((init_failure_registry [] (World.start [])).2
       (by simp [PyModule_New, World.start]) rfl).2.1]
     rfl⟩

end Autograd
